import Mathlib

/-!
Shallow embedding of the core of realm-core's slab allocator file envelope
(`src/realm/alloc_slab.hpp`) and query compiler (`src/realm/parser/driver.cpp`),
with theorems settling the frozen claims about them.

Conventions of the embedding:
* C++ `DataType` values are modelled by `Option DataType`: `none` stands for a
  negative (unknown) `DataType`, `some t` for a proper one.
* Throwing functions are modelled in `Except String`.
* External collaborators that the translated code calls but whose bodies are not
  in this source slice (`timegm`, `sscanf`, `util::base64_decode`, the argument
  binding backend) are parameters of the embedding.
* IEEE float / Decimal128 payloads are never computed on by the translated code
  (it only wraps them in `Value<T>`); they are modelled by the source text that
  produced them.
-/

namespace RealmCore

/-- The storage-level `DataType` enumeration (realm/data_type.hpp), as used by
`driver.cpp`. -/
inductive DataType where
  | int
  | bool
  | string
  | binary
  | mixed
  | timestamp
  | float
  | double
  | decimal
  | link
  | linkList
  | objectId
  | typedLink
  | uuid
deriving DecidableEq, Repr

/-- A C++ `DataType` variable: `none` models a negative value (the source tests
`type < 0` for "unknown"), `some t` a proper enumerator. -/
abbrev TypeTag := Option DataType

/-- Modelled from the spec: the external `get_data_type_name` table
(realm's data_type utilities are not part of this source slice). Only the fact
that it is some fixed text per type matters to the claims. -/
def get_data_type_name : TypeTag → String
  | some .int => "int"
  | some .bool => "bool"
  | some .string => "string"
  | some .binary => "binary"
  | some .mixed => "mixed"
  | some .timestamp => "timestamp"
  | some .float => "float"
  | some .double => "double"
  | some .decimal => "decimal"
  | some .link => "link"
  | some .linkList => "linklist"
  | some .objectId => "objectId"
  | some .typedLink => "typedLink"
  | some .uuid => "uuid"
  | none => "unknown"

/-- The payload of a `Mixed` value as observed through `get_mixed()` on a
constant subexpression. Float/double/decimal/ObjectId/UUID payloads carry the
source text they were built from (the translated code never computes on them). -/
inductive MixedVal where
  | nullv
  | intv (n : Int)
  | boolv (b : Bool)
  | strv (s : String)
  | binv (b : String)
  | tsv (seconds nanoseconds : Int)
  | floatv (text : String)
  | doublev (text : String)
  | decimalv (text : String)
  | oidv (text : String)
  | uuidv (text : String)
deriving DecidableEq, Repr

/-- `Mixed::is_null`. -/
def MixedVal.is_null : MixedVal → Bool
  | .nullv => true
  | _ => false

/-- What `EqualitylNode::visit` / `RelationalNode::visit` observe about a
compiled operand (`Subexpr`): its `get_type()`, whether the
`dynamic_cast<const ObjPropertyBase*>` succeeds, `links_exist()`,
`has_constant_evaluation()`, the `get_mixed()` payload, and whether the
`dynamic_cast<ColumnListBase*>` succeeds. -/
structure Subexpr where
  getType : TypeTag
  isObjProperty : Bool
  linksExist : Bool
  hasConstantEvaluation : Bool
  mixed : MixedVal
  isColumnList : Bool
deriving DecidableEq, Repr

/-- The `Subexpr` produced for a compiled constant (`Value<T>` /
`ConstantStringValue`): not a property, no links, constant evaluation. -/
def constantSubexpr (t : TypeTag) (v : MixedVal) : Subexpr :=
  { getType := t
    isObjProperty := false
    linksExist := false
    hasConstantEvaluation := true
    mixed := v
    isColumnList := false }

/-- `CompareNode::EQUAL` / `NOT_EQUAL`. -/
inductive EqOp where
  | equal
  | notEqual
deriving DecidableEq, Repr

/-- `CompareNode::GREATER` / `LESS` / `GREATER_EQUAL` / `LESS_EQUAL`. -/
inductive RelOp where
  | greater
  | less
  | greaterEqual
  | lessEqual
deriving DecidableEq, Repr

/-- The relational entries of the source's `opstr` map. -/
def opstr : RelOp → String
  | .greater => ">"
  | .less => "<"
  | .greaterEqual => ">="
  | .lessEqual => "<="

/-- The comparison condition a generic `Compare<Cond>` expression is built
with, including the case-insensitive equality variants. -/
inductive CmpKind where
  | equal
  | notEqual
  | equalIns
  | notEqualIns
  | less
  | greater
  | lessEqual
  | greaterEqual
deriving DecidableEq, Repr

/-- The query value returned by a comparison node's `visit`: a
column-specialized predicate, a column-vs-null predicate, or a generic
`Compare<K>` expression. `Compare` keeps its two constructor arguments in
source order: the code builds `Compare<K>(std::move(right), std::move(left))`. -/
inductive QueryResult where
  | simpleNull (op : EqOp)
  | simpleEq (op : EqOp) (t : DataType) (caseFlag : Option Bool)
  | simpleRel (op : RelOp) (t : DataType)
  | compare (k : CmpKind) (first second : Subexpr)
deriving DecidableEq, Repr

/-- The guard `left_type >= 0 && right_type >= 0 &&
!Mixed::data_types_are_comparable(left_type, right_type)` of
`EqualitylNode::visit`; `c` is the external `Mixed::data_types_are_comparable`. -/
def equality_type_check_fails (c : DataType → DataType → Bool) : TypeTag → TypeTag → Bool
  | some a, some b => !(c a b)
  | _, _ => false

/-- The guard `left_type < 0 || right_type < 0 ||
!Mixed::data_types_are_comparable(left_type, right_type)` of
`RelationalNode::visit`. -/
def relational_type_check_fails (c : DataType → DataType → Bool) : TypeTag → TypeTag → Bool
  | some a, some b => !(c a b)
  | _, _ => true

/-- The trailing generic-expression branch of `EqualitylNode::visit`:
`Compare<Equal|NotEqual>(right, left)` when case sensitive, the `Ins`
variants otherwise. -/
def generic_equality (op : EqOp) (case_sensitive : Bool) (left right : Subexpr) :
    Except String QueryResult :=
  if case_sensitive then
    match op with
    | .equal => .ok (.compare .equal right left)
    | .notEqual => .ok (.compare .notEqual right left)
  else
    match op with
    | .equal => .ok (.compare .equalIns right left)
    | .notEqual => .ok (.compare .notEqualIns right left)

/-- `EqualitylNode::visit` (driver.cpp), applied to the two subexpressions
produced by `ParserDriver::cmp`. `c` is the external
`Mixed::data_types_are_comparable`. -/
def EqualitylNode_visit (c : DataType → DataType → Bool) (op : EqOp)
    (case_sensitive : Bool) (left right : Subexpr) : Except String QueryResult :=
  if equality_type_check_fails c left.getType right.getType then
    .error ("Unsupported comparison between type '" ++ get_data_type_name left.getType
      ++ "' and type '" ++ get_data_type_name right.getType ++ "'")
  else if left.isObjProperty && !left.linksExist && right.hasConstantEvaluation
      && left.getType == right.getType then
    if right.mixed.is_null then
      .ok (.simpleNull op)
    else
      match left.getType with
      | some .int => .ok (.simpleEq op .int none)
      | some .bool => .ok (.simpleEq op .bool none)
      | some .string => .ok (.simpleEq op .string (some case_sensitive))
      | some .binary => .ok (.simpleEq op .binary (some case_sensitive))
      | some .timestamp => .ok (.simpleEq op .timestamp none)
      | some .float => .ok (.simpleEq op .float none)
      | some .double => .ok (.simpleEq op .double none)
      | some .decimal => .ok (.simpleEq op .decimal none)
      | some .uuid => .ok (.simpleEq op .uuid none)
      | _ => generic_equality op case_sensitive left right
  else
    generic_equality op case_sensitive left right

/-- The trailing generic-expression branch of `RelationalNode::visit`: the
operands are swapped and the operator mirrored, `x > y` becomes
`Compare<Less>(y, x)`. -/
def generic_relational (op : RelOp) (left right : Subexpr) : Except String QueryResult :=
  match op with
  | .greater => .ok (.compare .less right left)
  | .less => .ok (.compare .greater right left)
  | .greaterEqual => .ok (.compare .lessEqual right left)
  | .lessEqual => .ok (.compare .greaterEqual right left)

/-- `RelationalNode::visit` (driver.cpp), applied to the two subexpressions
produced by `ParserDriver::cmp`. -/
def RelationalNode_visit (c : DataType → DataType → Bool) (op : RelOp)
    (left right : Subexpr) : Except String QueryResult :=
  if left.getType == some .uuid then
    .error ("Unsupported operator " ++ opstr op
      ++ " in query. Only equal (==) and not equal (!=) are supported for this type.")
  else if relational_type_check_fails c left.getType right.getType then
    .error ("Unsupported comparison between type '" ++ get_data_type_name left.getType
      ++ "' and type '" ++ get_data_type_name right.getType ++ "'")
  else if left.isObjProperty && !left.linksExist && right.hasConstantEvaluation
      && left.getType == right.getType then
    match left.getType with
    | some .int => .ok (.simpleRel op .int)
    | some .timestamp => .ok (.simpleRel op .timestamp)
    | some .float => .ok (.simpleRel op .float)
    | some .double => .ok (.simpleRel op .double)
    | some .decimal => .ok (.simpleRel op .decimal)
    | _ => generic_relational op left right
  else
    generic_relational op left right

/-- Semantics of a source relational operator on ordered values
(`x op y` with `x` the source's left operand). -/
def RelOp.holds : RelOp → Int → Int → Prop
  | .greater => fun a b => a > b
  | .less => fun a b => a < b
  | .greaterEqual => fun a b => a ≥ b
  | .lessEqual => fun a b => a ≤ b

/-- Semantics of a generic comparison condition `Cond(v1, v2)` on ordered
values, `v1` being the `Compare` node's first operand (realm's `Less` etc.
evaluate their first argument against their second). -/
def CmpKind.holds : CmpKind → Int → Int → Prop
  | .equal => fun a b => a = b
  | .notEqual => fun a b => a ≠ b
  | .equalIns => fun a b => a = b
  | .notEqualIns => fun a b => a ≠ b
  | .less => fun a b => a < b
  | .greater => fun a b => a > b
  | .lessEqual => fun a b => a ≤ b
  | .greaterEqual => fun a b => a ≥ b

/-- The mirrored condition the generic relational path emits for each source
operator. -/
def RelOp.mirror : RelOp → CmpKind
  | .greater => .less
  | .less => .greater
  | .greaterEqual => .lessEqual
  | .lessEqual => .greaterEqual

/-- The numeric value of a digit character under a given base, as `strtol`
accepts it. -/
def digitVal (base : Nat) (c : Char) : Option Nat :=
  let v : Option Nat :=
    if '0' ≤ c ∧ c ≤ '9' then some (c.toNat - '0'.toNat)
    else if 'a' ≤ c ∧ c ≤ 'z' then some (c.toNat - 'a'.toNat + 10)
    else if 'A' ≤ c ∧ c ≤ 'Z' then some (c.toNat - 'A'.toNat + 10)
    else none
  match v with
  | some d => if d < base then some d else none
  | none => none

/-- The maximal digit prefix a `strtol`-style scan consumes. -/
def parseDigits (base : Nat) : List Char → Nat → Nat
  | [], acc => acc
  | c :: cs, acc =>
    match digitVal base c with
    | some d => parseDigits base cs (acc * base + d)
    | none => acc

/-- Model of C `strtol(s, nullptr, base)` as the source uses it (base 0 =
auto-detect `0x`/leading `0`/decimal, base 10): optional whitespace, optional
sign, maximal run of digits, `0` when no digit is found. Overflow clamping of
the C function is not modelled (the parser's inputs are small). -/
def strtolModel (s : String) (base : Nat) : Int :=
  let cs := s.toList.dropWhile (fun c => c == ' ' || c == '\t' || c == '\n' || c == '\r')
  let signed : Bool × List Char :=
    match cs with
    | '-' :: rest => (true, rest)
    | '+' :: rest => (false, rest)
    | _ => (false, cs)
  let body : Nat × List Char :=
    if base = 16 ∨ base = 0 then
      match signed.2 with
      | '0' :: 'x' :: rest => (16, rest)
      | '0' :: 'X' :: rest => (16, rest)
      | _ =>
        if base = 0 then
          match signed.2 with
          | '0' :: rest => (8, '0' :: rest)
          | _ => (10, signed.2)
        else (16, signed.2)
    else (base, signed.2)
  let n := parseDigits body.1 body.2 0
  if signed.1 then -(n : Int) else (n : Int)

/-- Truncation to a signed 32-bit value, for the source's `int32_t(strtol(...))`. -/
def toInt32 (n : Int) : Int := (n + 2 ^ 31).emod (2 ^ 32) - 2 ^ 31

/-- `std::string::substr(pos, len)` (the in-range case the source relies on). -/
def substrModel (s : String) (pos len : Nat) : String :=
  String.mk ((s.toList.drop pos).take len)

/-- `std::string::substr(pos)`. -/
def substrFrom (s : String) (pos : Nat) : String :=
  String.mk (s.toList.drop pos)

/-- Index of the first occurrence of a character (`std::string::find`),
`none` for `npos`. -/
def findCharIdx (c : Char) : List Char → Option Nat
  | [] => none
  | x :: xs => if x = c then some 0 else (findCharIdx c xs).map (· + 1)

/-- `get_timestamp_if_valid` (driver.cpp): accepts the pair exactly when the
two components do not carry opposite signs. -/
def get_timestamp_if_valid (seconds nanoseconds : Int) : Except String (Int × Int) :=
  if (0 ≤ seconds ∧ 0 ≤ nanoseconds) ∨ (seconds ≤ 0 ∧ nanoseconds ≤ 0) then
    .ok (seconds, nanoseconds)
  else
    .error "Invalid timestamp format"

/-- The `T<sec>:<nanos>` branch of `ConstantNode::visit`'s TIMESTAMP case:
split at the first `:`, `strtol` both parts (nanoseconds through `int32_t`).
A text without `:` makes `substr(npos + 1)` throw `std::out_of_range`. -/
def timestamp_T_form (s : String) : Except String (Int × Int) :=
  match findCharIdx ':' s.toList with
  | none => .error "std::out_of_range"
  | some colon_pos =>
    let s1 := substrModel s 1 (colon_pos - 1)
    let s2 := substrFrom s (colon_pos + 1)
    .ok (strtolModel s1 0, toInt32 (strtolModel s2 0))

/-- The separator the readable-date branch scans with: `@` when the text
contains one, else `T`. -/
def timestamp_sep (s : String) : Char :=
  if (findCharIdx '@' s.toList).isSome then '@' else 'T'

/-- The readable-date branch of `ConstantNode::visit`'s TIMESTAMP case, after
`sscanf` has produced the broken-down fields and the count of converted
fields: epoch/month offsets, pre-1900 rejection, `timegm` (external, a
parameter), nanoseconds defaulted when absent, negative nanoseconds rejected,
and the nanoseconds sign flipped when the seconds are negative. -/
def timestamp_readable_form (timegm : Int → Int → Int → Int → Int → Int → Int)
    (tm_year tm_mon tm_mday tm_hour tm_min tm_sec nanos : Int) (cnt : Nat) :
    Except String (Int × Int) :=
  if cnt < 6 then .error "REALM_ASSERT(cnt >= 6)"
  else
    let year := tm_year - 1900
    let mon := tm_mon - 1
    if year < 0 then .error "Conversion of dates before 1900 is not supported."
    else
      let seconds := timegm year mon tm_mday tm_hour tm_min tm_sec
      let nanoseconds : Int := if cnt = 6 then 0 else nanos
      if nanoseconds < 0 then .error "The nanoseconds of a Timestamp cannot be negative."
      else if seconds < 0 then .ok (seconds, -nanoseconds)
      else .ok (seconds, nanoseconds)

/-- The `ConstantNode::Type` enumeration. -/
inductive ConstantType where
  | number
  | float
  | infinityVal
  | nanVal
  | string
  | base64
  | timestamp
  | uuidT
  | oid
  | nullVal
  | trueVal
  | falseVal
  | arg
deriving DecidableEq, Repr

/-- A `ConstantNode` of the predicate AST: its type and source text. -/
structure ConstantNode where
  type : ConstantType
  text : String
deriving DecidableEq, Repr

/-- The `query_parser::Arguments` interface. Accessors model
`m_args.at(n).get<T>()`, which throws on an out-of-range index or a type
mismatch, hence `Except`. Float/double/decimal/ObjectId/UUID payloads are
modelled by text, as in `MixedVal`; a timestamp is its two components. -/
structure Arguments where
  is_argument_null : Nat → Bool
  type_for_argument : Nat → TypeTag
  bool_for_argument : Nat → Except String Bool
  long_for_argument : Nat → Except String Int
  float_for_argument : Nat → Except String String
  double_for_argument : Nat → Except String String
  string_for_argument : Nat → Except String String
  binary_for_argument : Nat → Except String String
  timestamp_for_argument : Nat → Except String (Int × Int)
  objectid_for_argument : Nat → Except String String
  uuid_for_argument : Nat → Except String String
  decimal128_for_argument : Nat → Except String String

/-- The external collaborators `ConstantNode::visit` calls whose bodies are
outside this source slice: libc `timegm`, `util::base64_decode` (`none`
models decode failure), and `sscanf` on the readable date format (returning
the seven fields and the count of fields converted). -/
structure QueryExternals where
  timegm : Int → Int → Int → Int → Int → Int → Int
  base64_decode : String → Option String
  sscanf_datetime : String → Char → (Int × Int × Int × Int × Int × Int × Int) × Nat

/-- The `ret` computed by `ConstantNode::visit` before the final null check:
`none` models `ret == nullptr` surviving to the end of the `switch`. -/
def constant_node_ret (ext : QueryExternals) (args : Arguments)
    (node : ConstantNode) (hint : TypeTag) : Except String (Option Subexpr) :=
  match node.type with
  | .number =>
    if hint == some .decimal then
      .ok (some (constantSubexpr (some .decimal) (.decimalv node.text)))
    else
      .ok (some (constantSubexpr (some .int) (.intv (strtolModel node.text 0))))
  | .float =>
    match hint with
    | some .float => .ok (some (constantSubexpr (some .float) (.floatv node.text)))
    | some .decimal => .ok (some (constantSubexpr (some .decimal) (.decimalv node.text)))
    | _ => .ok (some (constantSubexpr (some .double) (.doublev node.text)))
  | .infinityVal =>
    let negative := node.text.toList.headD ' ' = '-'
    match hint with
    | some .float =>
      .ok (some (constantSubexpr (some .float) (.floatv (if negative then "-inf" else "inf"))))
    | some .double =>
      .ok (some (constantSubexpr (some .double) (.doublev (if negative then "-inf" else "inf"))))
    | some .decimal => .ok (some (constantSubexpr (some .decimal) (.decimalv node.text)))
    | _ => .error ("Infinity not supported for " ++ get_data_type_name hint)
  | .nanVal =>
    match hint with
    | some .float => .ok (some (constantSubexpr (some .float) (.floatv "nan")))
    | some .double => .ok (some (constantSubexpr (some .double) (.doublev "nan")))
    | some .decimal => .ok (some (constantSubexpr (some .decimal) (.decimalv "nan")))
    | _ => .error "REALM_UNREACHABLE"
  | .string =>
    .ok (some (constantSubexpr (some .string)
      (.strv (substrModel node.text 1 (node.text.length - 2)))))
  | .base64 =>
    let window := substrModel node.text 4 (node.text.length - 5)
    match ext.base64_decode window with
    | none => .error "Invalid base64 value"
    | some decoded =>
      if hint == some .string then
        .ok (some (constantSubexpr (some .string) (.strv decoded)))
      else if hint == some .binary then
        .ok (some (constantSubexpr (some .binary) (.binv decoded)))
      else .ok none
  | .timestamp =>
    let pre : Except String (Int × Int) :=
      if node.text.toList.headD ' ' = 'T' then
        timestamp_T_form node.text
      else
        let sep := timestamp_sep node.text
        let scanned := ext.sscanf_datetime node.text sep
        timestamp_readable_form ext.timegm scanned.1.1 scanned.1.2.1 scanned.1.2.2.1
          scanned.1.2.2.2.1 scanned.1.2.2.2.2.1 scanned.1.2.2.2.2.2.1 scanned.1.2.2.2.2.2.2
          scanned.2
    pre.bind fun p =>
      (get_timestamp_if_valid p.1 p.2).map fun q =>
        some (constantSubexpr (some .timestamp) (.tsv q.1 q.2))
  | .uuidT =>
    .ok (some (constantSubexpr (some .uuid)
      (.uuidv (substrModel node.text 5 (node.text.length - 6)))))
  | .oid =>
    .ok (some (constantSubexpr (some .objectId)
      (.oidv (substrModel node.text 4 (node.text.length - 5)))))
  | .nullVal =>
    if hint == some .string then
      .ok (some (constantSubexpr (some .string) .nullv))
    else if hint == some .binary then
      .ok (some (constantSubexpr (some .binary) .nullv))
    else if hint == some .linkList then
      .error "Cannot compare linklist with NULL"
    else
      .ok (some (constantSubexpr none .nullv))
  | .trueVal => .ok (some (constantSubexpr (some .bool) (.boolv true)))
  | .falseVal => .ok (some (constantSubexpr (some .bool) (.boolv false)))
  | .arg =>
    let arg_no := (strtolModel (substrFrom node.text 1) 10).toNat
    if args.is_argument_null arg_no then
      .ok (some (constantSubexpr none .nullv))
    else
      match args.type_for_argument arg_no with
      | some .int =>
        (args.long_for_argument arg_no).map fun n =>
          some (constantSubexpr (some .int) (.intv n))
      | some .string =>
        (args.string_for_argument arg_no).map fun s =>
          some (constantSubexpr (some .string) (.strv s))
      | some .binary =>
        (args.binary_for_argument arg_no).map fun b =>
          some (constantSubexpr (some .binary) (.binv b))
      | some .bool =>
        (args.bool_for_argument arg_no).map fun b =>
          some (constantSubexpr (some .bool) (.boolv b))
      | some .float =>
        (args.float_for_argument arg_no).map fun t =>
          some (constantSubexpr (some .float) (.floatv t))
      | some .double =>
        (args.double_for_argument arg_no).map fun t =>
          some (constantSubexpr (some .double) (.doublev t))
      | some .timestamp =>
        match args.timestamp_for_argument arg_no with
        | .ok p => .ok (some (constantSubexpr (some .timestamp) (.tsv p.1 p.2)))
        | .error _ =>
          (args.objectid_for_argument arg_no).map fun t =>
            some (constantSubexpr (some .objectId) (.oidv t))
      | some .objectId =>
        match args.objectid_for_argument arg_no with
        | .ok t => .ok (some (constantSubexpr (some .objectId) (.oidv t)))
        | .error _ =>
          (args.timestamp_for_argument arg_no).map fun p =>
            some (constantSubexpr (some .timestamp) (.tsv p.1 p.2))
      | some .decimal =>
        (args.decimal128_for_argument arg_no).map fun t =>
          some (constantSubexpr (some .decimal) (.decimalv t))
      | some .uuid =>
        (args.uuid_for_argument arg_no).map fun t =>
          some (constantSubexpr (some .uuid) (.uuidv t))
      | _ => .ok none

/-- `ConstantNode::visit` (driver.cpp): the `switch` above followed by the
final `if (!ret) throw`. -/
def ConstantNode_visit (ext : QueryExternals) (args : Arguments)
    (node : ConstantNode) (hint : TypeTag) : Except String Subexpr :=
  (constant_node_ret ext args node hint).bind fun ret =>
    match ret with
    | some v => .ok v
    | none => .error ("Unsupported comparison between property of type '"
        ++ get_data_type_name hint ++ "' and constant value '" ++ node.text ++ "'")

/-- A `ValueNode` operand as `ParserDriver::cmp` dispatches on it: either its
`constant` member is set, or its `prop` member is. A property node's own
compilation (`PropNode::visit`, which resolves paths against the schema) is
modelled by the subexpression it produces, `Except` for the errors it may
throw. -/
inductive ValueNode where
  | constant (c : ConstantNode)
  | prop (visited : Except String Subexpr)

/-- The final two-primitive-list rejection of `ParserDriver::cmp` (the
serialized descriptions in the source's message are elided). -/
def cmp_check_lists (left right : Subexpr) : Except String (Subexpr × Subexpr) :=
  if left.isColumnList && right.isColumnList then
    .error "Ordered comparison between two primitive lists is not implemented yet"
  else
    .ok (left, right)

/-- `ParserDriver::cmp` (driver.cpp): rejects two constants before compiling
anything, otherwise compiles the non-constant side first and hints the
constant with its type. -/
def ParserDriver_cmp (ext : QueryExternals) (args : Arguments)
    (v0 v1 : ValueNode) : Except String (Subexpr × Subexpr) :=
  match v0, v1 with
  | .constant _, .constant _ => .error "Cannot compare two constants"
  | .prop lp, .constant rc =>
    lp.bind fun left =>
      (ConstantNode_visit ext args rc left.getType).bind fun right =>
        cmp_check_lists left right
  | .constant lc, .prop rp =>
    rp.bind fun right =>
      (ConstantNode_visit ext args lc right.getType).bind fun left =>
        cmp_check_lists left right
  | .prop lp, .prop rp =>
    rp.bind fun right =>
      lp.bind fun left =>
        cmp_check_lists left right

/-- `PostOpNode::Type`: `.@count` or `.@size`. -/
inductive PostOpType where
  | count
  | size
deriving DecidableEq, Repr

/-- `post_op_type_to_str` (driver.cpp). -/
def post_op_type_to_str : PostOpType → String
  | .count => ".@count"
  | .size => ".@size"

/-- What `PostOpNode::visit` observes about its subexpression: which of the
four `dynamic_cast`s succeed (checked in source order), and `get_type()` for
the error message. -/
structure PostOpInput where
  isColumnsLink : Bool
  isColumnListBase : Bool
  isColumnsString : Bool
  isColumnsBinary : Bool
  getType : TypeTag
deriving DecidableEq, Repr

/-- The subexpression `PostOpNode::visit` produces. -/
inductive PostOpResult where
  | countOfLink
  | sizeOfList
  | sizeOfString
  | sizeOfBinary
deriving DecidableEq, Repr

/-- `PostOpNode::visit` (driver.cpp): the `dynamic_cast` chain, in source
order; the operator token is used only in the error message. -/
def PostOpNode_visit (t : PostOpType) (s : PostOpInput) : Except String PostOpResult :=
  if s.isColumnsLink then .ok .countOfLink
  else if s.isColumnListBase then .ok .sizeOfList
  else if s.isColumnsString then .ok .sizeOfString
  else if s.isColumnsBinary then .ok .sizeOfBinary
  else
    .error ("Operation '" ++ post_op_type_to_str t
      ++ "' is not supported on property of type '" ++ get_data_type_name s.getType ++ "'")

/-! ## Link-chain backlink resolution

`LinkChain::backlink(const std::string&)` and `get_printable_table_name` work
on `std::string` values; the embedding uses `List Char` so that the splitting
and the error-message structure stay visible. -/

/-- A table as the backlink resolver observes it: its name and the names of
its columns. `get_column_key` yields the column's index, `none` modelling a
null `ColKey`. -/
structure TableSchema where
  name : List Char
  columns : List (List Char)
deriving DecidableEq, Repr

/-- `Table::get_column_key`: a null (falsy) `ColKey` for an unknown name. -/
def get_column_key (t : TableSchema) (col : List Char) : Option Nat :=
  t.columns.findIdx? (fun c => c == col)

/-- The parent group as a list of tables; `Group::get_table` by name. -/
structure GroupSchema where
  tables : List TableSchema
deriving Repr

/-- `Group::get_table`. -/
def get_table (g : GroupSchema) (name : List Char) : Option TableSchema :=
  g.tables.find? (fun t => t.name == name)

/-- The `"class_"` constant of `get_printable_table_name`. -/
def class_table_marker : List Char := ['c', 'l', 'a', 's', 's', '_']

/-- `get_printable_table_name` (driver.cpp): strips a leading `"class_"`
only when the name is strictly longer than the marker. -/
def get_printable_table_name (name : List Char) : List Char :=
  if name.length > class_table_marker.length
      && name.take class_table_marker.length == class_table_marker then
    name.drop class_table_marker.length
  else name

/-- The splitting done by `LinkChain::backlink(const std::string&)`:
`substr(7)`, then split at the first `.`; `std::string::npos + 1` wraps to
`0`, so a dotless payload yields the whole text twice. -/
def backlink_split (path_elem : List Char) : List Char × List Char :=
  let table_column_pair := path_elem.drop 7
  match findCharIdx '.' table_column_pair with
  | some dot_pos => (table_column_pair.take dot_pos, table_column_pair.drop (dot_pos + 1))
  | none => (table_column_pair, table_column_pair)

/-- The message `LinkChain::backlink` throws when either lookup fails:
`util::format("No property '%1' found in type '%2' which links to type '%3'",
column_name, get_printable_table_name(table_name),
get_printable_table_name(m_current_table->get_name()))`. -/
def backlink_error_message (table_name column_name current : List Char) : List Char :=
  "No property '".toList ++ column_name ++ "' found in type '".toList
    ++ get_printable_table_name table_name ++ "' which links to type '".toList
    ++ get_printable_table_name current ++ "'".toList

/-- `LinkChain::backlink(const std::string&)` (driver.cpp): drop the
`"@links."` prefix, split at the first `.`, look the table up in the parent
group and the column up on it, and throw a "No property" error naming the
printable table names when either lookup fails. On success the origin table
and column key are handed to `backlink(Table, ColKey)`. -/
def LinkChain_backlink (g : GroupSchema) (current_table_name : List Char)
    (path_elem : List Char) : Except (List Char) (TableSchema × Nat) :=
  let split := backlink_split path_elem
  match get_table g split.1 with
  | some origin_table =>
    match get_column_key origin_table split.2 with
    | some origin_column => .ok (origin_table, origin_column)
    | none => .error (backlink_error_message split.1 split.2 current_table_name)
  | none => .error (backlink_error_message split.1 split.2 current_table_name)

/-- The spec's reading of the table name shown in the error: "the table name
with any leading class_ prefix stripped" (no length restriction). Stated from
the spec's words, to be compared with `get_printable_table_name`. -/
def spec_stripped_table_name (name : List Char) : List Char :=
  if name.take class_table_marker.length == class_table_marker then
    name.drop class_table_marker.length
  else name

/-- `needle` occurs contiguously inside `hay`. -/
def containsL (hay needle : List Char) : Prop :=
  ∃ l r, hay = l ++ needle ++ r

/-! ## Slab allocator file envelope -/

/-- `SlabAlloc::footer_magic_cookie` (alloc_slab.hpp). -/
def footer_magic_cookie : Nat := 0x3034125237E526C8

/-- The supported file format version (`default_file_format_version`,
alloc_slab.hpp, with `REALM_NULL_STRINGS == 1`). -/
def default_file_format_version : Nat := 3

/-- A 64-bit little-endian read from a byte buffer (bytes past the end read
as 0; the callers below stay in range). -/
def readU64LE (buf : List Nat) (off : Nat) : Nat :=
  buf.getD off 0 % 256
  + 256 * (buf.getD (off + 1) 0 % 256
  + 256 * (buf.getD (off + 2) 0 % 256
  + 256 * (buf.getD (off + 3) 0 % 256
  + 256 * (buf.getD (off + 4) 0 % 256
  + 256 * (buf.getD (off + 5) 0 % 256
  + 256 * (buf.getD (off + 6) 0 % 256
  + 256 * (buf.getD (off + 7) 0 % 256)))))))

/-- The header mnemonic bytes at offset 16: `"T-DB"` (`SlabAlloc::Header`). -/
def header_mnemonic_ok (buf : List Nat) : Bool :=
  buf.getD 16 0 == 0x54 && buf.getD 17 0 == 0x2D
    && buf.getD 18 0 == 0x44 && buf.getD 19 0 == 0x42

/-- The two-byte format version at offset 20 (`SlabAlloc::Header`). -/
def header_version (buf : List Nat) : Nat :=
  buf.getD 20 0 % 256 + 256 * (buf.getD 21 0 % 256)

/-- The flags byte at offset 23 (`SlabAlloc::Header`). -/
def header_flags (buf : List Nat) : Nat := buf.getD 23 0

/-- Which top-ref slot the flags select (`flags_SelectBit`, bit 0). -/
def header_select_slot (buf : List Nat) : Nat :=
  if (header_flags buf).testBit 0 then 1 else 0

/-- The server-sync-mode flag (`flags_ServerSyncMode`, bit 1). -/
def header_sync_flag (buf : List Nat) : Bool := (header_flags buf).testBit 1

/-- Modelled from the spec: the body of `SlabAlloc::validate_buffer`
(declared in alloc_slab.hpp; alloc_slab.cpp is not in this source slice).
Follows spec §4.1 "Header validation algorithm" over the bit-exact layout of
`SlabAlloc::Header` / `SlabAlloc::StreamingFooter`: length, mnemonic, format
version and server-sync-mode checks, then top-ref selection by flags bit 0,
with a zero top-ref demanding a streaming footer whose magic cookie matches.
Returns the top-ref; every rejection throws `InvalidDatabase`. -/
def validate_buffer (server_sync_mode : Bool) (buf : List Nat) : Except String Nat :=
  if buf.length < 24 then .error "InvalidDatabase"
  else if !(header_mnemonic_ok buf) then .error "InvalidDatabase"
  else if header_version buf ≠ default_file_format_version then .error "InvalidDatabase"
  else if header_sync_flag buf ≠ server_sync_mode then .error "InvalidDatabase"
  else
    let top_ref := readU64LE buf (8 * header_select_slot buf)
    if top_ref = 0 then
      if buf.length < 24 + 16 then .error "InvalidDatabase"
      else if readU64LE buf (buf.length - 8) ≠ footer_magic_cookie then
        .error "InvalidDatabase"
      else .ok (readU64LE buf (buf.length - 16))
    else .ok top_ref

/-- `SlabAlloc::AttachMode` (alloc_slab.hpp). -/
inductive AttachMode where
  | attach_None
  | attach_OwnedBuffer
  | attach_UsersBuffer
  | attach_SharedFile
  | attach_UnsharedFile
deriving DecidableEq, Repr

/-- The header fields `prepare_for_update` may touch (`SlabAlloc::Header`). -/
structure FileHeaderState where
  top_ref_0 : Nat
  top_ref_1 : Nat
  flags : Nat
deriving DecidableEq, Repr

/-- The in-memory state `prepare_for_update` reads and writes: the attach
mode, the mapped header, the footer region, and the
`m_file_on_streaming_form` flag (alloc_slab.hpp). -/
structure SlabAllocFileState where
  attach_mode : AttachMode
  header : FileHeaderState
  footer_top_ref : Nat
  footer_magic : Nat
  file_on_streaming_form : Bool
deriving DecidableEq, Repr

/-- Modelled from the spec: the body of `SlabAlloc::do_prepare_for_update`
(declared in alloc_slab.hpp; alloc_slab.cpp is not in this source slice).
Per spec §4.1: "rewrite the in-memory header so its first top-ref slot holds
the footer's top-ref and zero the footer region; clears the streaming-form
flag". -/
def do_prepare_for_update (s : SlabAllocFileState) : SlabAllocFileState :=
  { s with
    header := { s.header with top_ref_0 := s.footer_top_ref }
    footer_top_ref := 0
    footer_magic := 0
    file_on_streaming_form := false }

/-- `SlabAlloc::prepare_for_update` (alloc_slab.hpp, inline): a no-op unless
the file is on streaming form (callers must hold a file attachment, which the
source asserts). -/
def prepare_for_update (s : SlabAllocFileState) : SlabAllocFileState :=
  if !s.file_on_streaming_form then s else do_prepare_for_update s

/-! ## Concrete inputs used by the witnesses -/

/-- An `ObjectId` property column without link traversal. -/
def exOidColumn : Subexpr :=
  { getType := some .objectId
    isObjProperty := true
    linksExist := false
    hasConstantEvaluation := false
    mixed := .nullv
    isColumnList := false }

/-- An `ObjectId` constant. -/
def exOidValue : Subexpr := constantSubexpr (some .objectId) (.oidv "0123456789abcdef01234567")

/-- An `Int` subexpression that is not an object property (generic path). -/
def exNonProperty : Subexpr :=
  { getType := some .int
    isObjProperty := false
    linksExist := false
    hasConstantEvaluation := false
    mixed := .nullv
    isColumnList := false }

/-- An `Int` constant. -/
def exIntValue : Subexpr := constantSubexpr (some .int) (.intv 7)

/-- A `UUID` property column. -/
def exUuidColumn : Subexpr :=
  { getType := some .uuid
    isObjProperty := true
    linksExist := false
    hasConstantEvaluation := false
    mixed := .nullv
    isColumnList := false }

/-- A `UUID` constant. -/
def exUuidValue : Subexpr :=
  constantSubexpr (some .uuid) (.uuidv "3b241101-e2bb-4255-8caf-4136c566a962")

/-- A `data_types_are_comparable` table that accepts every pair. -/
def allComparable : DataType → DataType → Bool := fun _ _ => true

/-- A streaming-form file: 24-byte header (zero top-refs, `"T-DB"`, version 3,
flags 0) followed by the 16-byte footer (top-ref 1024, the magic cookie),
spec §8 scenario 1. -/
def streaming_demo_buffer : List Nat :=
  [0, 0, 0, 0, 0, 0, 0, 0,
   0, 0, 0, 0, 0, 0, 0, 0,
   0x54, 0x2D, 0x44, 0x42, 3, 0, 0, 0,
   0, 4, 0, 0, 0, 0, 0, 0,
   0xC8, 0x26, 0xE5, 0x37, 0x52, 0x12, 0x34, 0x30]

/-- A streaming allocator state for the idempotence witness. -/
def exStreamingState : SlabAllocFileState :=
  { attach_mode := .attach_SharedFile
    header := { top_ref_0 := 0, top_ref_1 := 0, flags := 0 }
    footer_top_ref := 1024
    footer_magic := footer_magic_cookie
    file_on_streaming_form := true }

/-- The types `EqualitylNode::visit`'s specialized `switch` handles (the
types with a non-empty case): integer, bool, string, binary, timestamp,
float, double, decimal, UUID. -/
def equality_fast_path_types : List DataType :=
  [.int, .bool, .string, .binary, .timestamp, .float, .double, .decimal, .uuid]

/-- A one-table group for the backlink witness. -/
def exGroup : GroupSchema :=
  { tables := [{ name := "class_Account".toList, columns := ["owner".toList] }] }

/-! ## Theorems for the claims -/

/-- C8: for every comparison whose two operands are both constants, two-operand
coercion fails with "Cannot compare two constants" before any constant is
compiled — `ParserDriver::cmp` returns the error for every pair of constant
nodes, whatever their contents, without invoking constant compilation. -/
theorem claim_C8_two_constants_rejected (ext : QueryExternals) (args : Arguments)
    (c1 c2 : ConstantNode) :
    ParserDriver_cmp ext args (.constant c1) (.constant c2)
      = .error "Cannot compare two constants" := rfl

/-- C10: `.@count` and `.@size` compile identically: `PostOpNode::visit`
chooses its result only by the subexpression's runtime kind (link column →
count, list/string/binary column → size, anything else → error), the operator
token only enters the error text, and every success under one operator is the
same subexpression under the other. -/
theorem claim_C10_count_size_identical (s : PostOpInput) :
    (∀ t₁ t₂ r, PostOpNode_visit t₁ s = .ok r → PostOpNode_visit t₂ s = .ok r)
    ∧ (∀ r, PostOpNode_visit .count s = .ok r ↔ PostOpNode_visit .size s = .ok r)
    ∧ (s.isColumnsLink = true → ∀ t, PostOpNode_visit t s = .ok .countOfLink)
    ∧ (s.isColumnsLink = false → s.isColumnListBase = true →
        ∀ t, PostOpNode_visit t s = .ok .sizeOfList)
    ∧ (s.isColumnsLink = false → s.isColumnListBase = false → s.isColumnsString = true →
        ∀ t, PostOpNode_visit t s = .ok .sizeOfString)
    ∧ (s.isColumnsLink = false → s.isColumnListBase = false → s.isColumnsString = false →
        s.isColumnsBinary = true → ∀ t, PostOpNode_visit t s = .ok .sizeOfBinary)
    ∧ (s.isColumnsLink = false → s.isColumnListBase = false → s.isColumnsString = false →
        s.isColumnsBinary = false →
        ∀ t, PostOpNode_visit t s = .error ("Operation '" ++ post_op_type_to_str t
          ++ "' is not supported on property of type '"
          ++ get_data_type_name s.getType ++ "'")) := by
  obtain ⟨a, b, c, d, ty⟩ := s
  cases a <;> cases b <;> cases c <;> cases d <;>
    simp [PostOpNode_visit]

/-- C9: `prepare_for_update` on a file-attached allocator is a no-op when the
file is not on streaming form; when it is, it moves the footer top-ref into
the header's first slot, zeroes the footer region and clears the flag; and a
second call leaves the state exactly as after the first (idempotence). -/
theorem claim_C9_prepare_for_update_idempotent (s : SlabAllocFileState)
    (_hmode : s.attach_mode = .attach_SharedFile ∨ s.attach_mode = .attach_UnsharedFile) :
    (s.file_on_streaming_form = false → prepare_for_update s = s)
    ∧ prepare_for_update (prepare_for_update s) = prepare_for_update s
    ∧ (s.file_on_streaming_form = true →
        prepare_for_update s =
          { attach_mode := s.attach_mode
            header := { top_ref_0 := s.footer_top_ref, top_ref_1 := s.header.top_ref_1,
                        flags := s.header.flags }
            footer_top_ref := 0
            footer_magic := 0
            file_on_streaming_form := false }) := by
  refine ⟨fun h => ?_, ?_, fun h => ?_⟩
  · simp [prepare_for_update, h]
  · cases hs : s.file_on_streaming_form <;>
      simp [prepare_for_update, do_prepare_for_update, hs]
  · simp [prepare_for_update, do_prepare_for_update, h]

/-- C9 witness: idempotence at a concrete streaming-form state. -/
theorem claim_C9_witness :
    prepare_for_update (prepare_for_update exStreamingState)
      = prepare_for_update exStreamingState :=
  (claim_C9_prepare_for_update_idempotent exStreamingState (Or.inl rfl)).2.1

/-- C6: compiling a NULL constant is determined entirely by the type hint:
String → the empty/null string sentinel, Binary → the empty/null binary
sentinel, LinkList → "Cannot compare linklist with NULL", every other hint →
a typed null value. -/
theorem claim_C6_null_constant_by_hint (ext : QueryExternals) (args : Arguments)
    (text : String) (hint : TypeTag) :
    ConstantNode_visit ext args ⟨.nullVal, text⟩ hint =
      if hint = some .string then .ok (constantSubexpr (some .string) .nullv)
      else if hint = some .binary then .ok (constantSubexpr (some .binary) .nullv)
      else if hint = some .linkList then .error "Cannot compare linklist with NULL"
      else .ok (constantSubexpr none .nullv) := by
  cases hint with
  | none => rfl
  | some t => cases t <;> rfl

/-- C2: every relational comparison whose left operand compiles to type UUID
fails with the "unsupported operator" error, for every operator and every
right operand (that includes a UUID right operand): no relational comparison
over UUID succeeds. -/
theorem claim_C2_uuid_relational_unsupported (c : DataType → DataType → Bool)
    (op : RelOp) (left right : Subexpr) (h : left.getType = some .uuid) :
    RelationalNode_visit c op left right
      = .error ("Unsupported operator " ++ opstr op
        ++ " in query. Only equal (==) and not equal (!=) are supported for this type.") := by
  simp [RelationalNode_visit, h]

/-- C2 witness: `>` over a UUID column against a UUID constant fails. -/
theorem claim_C2_witness :
    RelationalNode_visit allComparable .greater exUuidColumn exUuidValue
      = .error ("Unsupported operator > in query."
        ++ " Only equal (==) and not equal (!=) are supported for this type.") :=
  claim_C2_uuid_relational_unsupported allComparable .greater exUuidColumn exUuidValue rfl

/-- C3: every generic-path relational emission swaps the operands and mirrors
the operator — whenever `RelationalNode::visit` builds a `Compare` node, the
condition is the source operator's mirror, the node's first operand is the
source right and its second the source left, and the mirrored condition on the
swapped operands holds exactly when the source comparison holds. -/
theorem claim_C3_relational_generic_swap (c : DataType → DataType → Bool) (op : RelOp)
    (left right : Subexpr) (k : CmpKind) (f s : Subexpr)
    (h : RelationalNode_visit c op left right = .ok (.compare k f s)) :
    k = op.mirror ∧ f = right ∧ s = left
      ∧ (∀ x y : Int, CmpKind.holds op.mirror y x ↔ RelOp.holds op x y) := by
  have hgen : generic_relational op left right = .ok (.compare k f s) →
      k = op.mirror ∧ f = right ∧ s = left := by
    cases op <;> · intro hg
                   simp [generic_relational] at hg
                   exact ⟨hg.1.symm, hg.2.1.symm, hg.2.2.symm⟩
  have hsem : ∀ x y : Int, CmpKind.holds op.mirror y x ↔ RelOp.holds op x y := by
    cases op <;> · intro x y
                   simp [CmpKind.holds, RelOp.holds, RelOp.mirror]
  unfold RelationalNode_visit at h
  split at h
  · exact absurd h (by simp)
  · split at h
    · exact absurd h (by simp)
    · split at h
      · split at h <;> first
          | exact absurd h (by simp)
          | exact ⟨(hgen h).1, (hgen h).2.1, (hgen h).2.2, hsem⟩
      · exact ⟨(hgen h).1, (hgen h).2.1, (hgen h).2.2, hsem⟩

/-- C3 witness: a concrete `>` comparison on the generic path compiles to
`Compare<Less>(right, left)` and is semantically the source comparison. -/
theorem claim_C3_witness :
    CmpKind.less = RelOp.greater.mirror ∧ exIntValue = exIntValue
      ∧ exNonProperty = exNonProperty
      ∧ (∀ x y : Int, CmpKind.holds RelOp.greater.mirror y x ↔ RelOp.holds RelOp.greater x y) :=
  claim_C3_relational_generic_swap allComparable .greater exNonProperty exIntValue
    .less exIntValue exNonProperty rfl

/-- C5: `get_timestamp_if_valid` succeeds exactly when seconds and nanoseconds
do not carry opposite signs, and throws "Invalid timestamp format" otherwise;
in the readable date form, negative parsed nanoseconds are rejected, the
nanoseconds are negated when the seconds are negative, and every pair the
readable form hands on has components of one sign. -/
theorem claim_C5_timestamp_sign_rules (seconds nanoseconds : Int) :
    (get_timestamp_if_valid seconds nanoseconds = .ok (seconds, nanoseconds) ↔
      (0 ≤ seconds ∧ 0 ≤ nanoseconds) ∨ (seconds ≤ 0 ∧ nanoseconds ≤ 0))
    ∧ (¬ ((0 ≤ seconds ∧ 0 ≤ nanoseconds) ∨ (seconds ≤ 0 ∧ nanoseconds ≤ 0)) →
      get_timestamp_if_valid seconds nanoseconds = .error "Invalid timestamp format")
    ∧ (∀ tg y mo d h mi se na cnt, 1900 ≤ y → 7 ≤ cnt → na < 0 →
        timestamp_readable_form tg y mo d h mi se na cnt
          = .error "The nanoseconds of a Timestamp cannot be negative.")
    ∧ (∀ tg y mo d h mi se na cnt, 1900 ≤ y → 7 ≤ cnt → 0 ≤ na →
        tg (y - 1900) (mo - 1) d h mi se < 0 →
        timestamp_readable_form tg y mo d h mi se na cnt
          = .ok (tg (y - 1900) (mo - 1) d h mi se, -na))
    ∧ (∀ tg y mo d h mi se na cnt p,
        timestamp_readable_form tg y mo d h mi se na cnt = .ok p →
        (0 ≤ p.1 ∧ 0 ≤ p.2) ∨ (p.1 ≤ 0 ∧ p.2 ≤ 0)) := by
  refine ⟨?_, fun h => ?_, ?_, ?_, ?_⟩
  · unfold get_timestamp_if_valid
    split_ifs with h <;> simp [h]
  · simp [get_timestamp_if_valid, h]
  · intro tg y mo d h mi se na cnt hy hcnt hna
    simp [timestamp_readable_form, show ¬ cnt < 6 by omega, show ¬ (y - 1900 < 0) by omega,
      show ¬ cnt = 6 by omega, hna]
  · intro tg y mo d h mi se na cnt hy hcnt hna hneg
    simp [timestamp_readable_form, show ¬ cnt < 6 by omega, show ¬ (y - 1900 < 0) by omega,
      show ¬ cnt = 6 by omega, show ¬ na < 0 by omega, hneg]
  · intro tg y mo d h mi se na cnt p hp
    unfold timestamp_readable_form at hp
    by_cases h1 : cnt < 6
    · rw [if_pos h1] at hp
      exact absurd hp (by simp)
    · rw [if_neg h1] at hp
      by_cases h2 : y - 1900 < 0
      · rw [if_pos h2] at hp
        exact absurd hp (by simp)
      · rw [if_neg h2] at hp
        set sec := tg (y - 1900) (mo - 1) d h mi se with hsec
        set nn := (if cnt = 6 then (0 : Int) else na) with hnn
        by_cases h3 : nn < 0
        · rw [if_pos h3] at hp
          exact absurd hp (by simp)
        · rw [if_neg h3] at hp
          by_cases h4 : sec < 0
          · rw [if_pos h4] at hp
            simp only [Except.ok.injEq] at hp
            subst hp
            right
            constructor
            · omega
            · simp only
              omega
          · rw [if_neg h4] at hp
            simp only [Except.ok.injEq] at hp
            subst hp
            left
            constructor
            · omega
            · simp only
              omega

/-- C1: an ObjectId equality (EQ or NEQ) between a link-free property and a
same-typed constant is not specialized: it falls through the empty
`type_ObjectId` case to the generic `Compare<Equal|NotEqual>` (`Ins` variant
when case-insensitive) path, while every type of the fast-path set (integer,
bool, string, binary, timestamp, float, double, decimal, UUID) is specialized
under the same guard; ObjectId is absent from that set. -/
theorem claim_C1_objectid_equality_generic (c : DataType → DataType → Bool)
    (op : EqOp) (cs : Bool) (left right : Subexpr) (t : DataType)
    (hprop : left.isObjProperty = true) (hlinks : left.linksExist = false)
    (hconst : right.hasConstantEvaluation = true)
    (hnotnull : right.mixed.is_null = false)
    (hcmp : c t t = true)
    (hl : left.getType = some t) (hr : right.getType = some t) :
    (t = .objectId →
      EqualitylNode_visit c op cs left right = .ok (.compare
        (match op, cs with
          | .equal, true => .equal
          | .notEqual, true => .notEqual
          | .equal, false => .equalIns
          | .notEqual, false => .notEqualIns) right left))
    ∧ (t ∈ equality_fast_path_types →
        ∃ csf, EqualitylNode_visit c op cs left right = .ok (.simpleEq op t csf))
    ∧ DataType.objectId ∉ equality_fast_path_types := by
  refine ⟨fun ht => ?_, fun ht => ?_, by decide⟩
  · subst ht
    cases op <;> cases cs <;>
      simp [EqualitylNode_visit, hl, hr, hprop, hlinks, hconst, hnotnull,
        equality_type_check_fails, hcmp, generic_equality]
  · fin_cases ht <;>
      exact ⟨_, by
        simp [EqualitylNode_visit, hl, hr, hprop, hlinks, hconst, hnotnull,
          equality_type_check_fails, hcmp]
        try rfl⟩

/-- C1 witness: a concrete ObjectId `==` against an ObjectId constant takes
the generic path. -/
theorem claim_C1_witness :
    EqualitylNode_visit allComparable .equal true exOidColumn exOidValue
      = .ok (.compare .equal exOidValue exOidColumn) :=
  (claim_C1_objectid_equality_generic allComparable .equal true exOidColumn exOidValue
    .objectId rfl rfl rfl rfl rfl rfl rfl).1 rfl

/-- C4: once validation reaches top-ref selection with a selected top-ref of
0, the file is treated as streaming form: a buffer shorter than 24 + 16
bytes, or whose trailing magic does not match the cookie, is rejected with
`InvalidDatabase`; otherwise validation succeeds with the top-ref read from
the footer's first 8 bytes. -/
theorem claim_C4_streaming_validation (sync : Bool) (buf : List Nat)
    (h24 : ¬ buf.length < 24)
    (hmn : header_mnemonic_ok buf = true)
    (hver : header_version buf = default_file_format_version)
    (hsync : header_sync_flag buf = sync)
    (htop : readU64LE buf (8 * header_select_slot buf) = 0) :
    (buf.length < 24 + 16 → validate_buffer sync buf = .error "InvalidDatabase")
    ∧ (readU64LE buf (buf.length - 8) ≠ footer_magic_cookie →
        validate_buffer sync buf = .error "InvalidDatabase")
    ∧ (¬ buf.length < 24 + 16 → readU64LE buf (buf.length - 8) = footer_magic_cookie →
        validate_buffer sync buf = .ok (readU64LE buf (buf.length - 16))) := by
  have hbase : validate_buffer sync buf =
      (if buf.length < 24 + 16 then .error "InvalidDatabase"
       else if readU64LE buf (buf.length - 8) ≠ footer_magic_cookie then
         .error "InvalidDatabase"
       else .ok (readU64LE buf (buf.length - 16))) := by
    simp [validate_buffer, h24, hmn, hver, hsync, htop]
  refine ⟨fun h => ?_, fun h => ?_, fun h1 h2 => ?_⟩ <;> rw [hbase]
  · rw [if_pos h]
  · split_ifs <;> simp_all
  · rw [if_neg h1, if_neg (by simpa using h2)]

/-- C4 witness: the spec's demo buffer (24-byte streaming header plus a
footer carrying top-ref 1024 and the magic cookie) validates to 1024. -/
theorem claim_C4_witness :
    validate_buffer false streaming_demo_buffer = .ok 1024 :=
  (claim_C4_streaming_validation false streaming_demo_buffer (by decide) (by decide)
    (by decide) (by decide) (by decide)).2.2 (by decide) (by decide)

/-- Dropping the 7-character `"@links."` marker. -/
theorem drop_links_marker (l₁ l₂ : List Char) :
    List.drop 7 (("@links.".toList ++ l₁) ++ l₂) = l₁ ++ l₂ := rfl

/-- The first `.` of `tbl ++ '.' :: col` is at `tbl.length` when `tbl` has no
dot. -/
theorem findCharIdx_append_dot (tbl col : List Char) (h : findCharIdx '.' tbl = none) :
    findCharIdx '.' (tbl ++ '.' :: col) = some tbl.length := by
  induction tbl with
  | nil => simp [findCharIdx]
  | cons x xs ih =>
    have hx : ¬ x = '.' := by
      intro hx
      rw [findCharIdx, if_pos hx] at h
      cases h
    have h' : findCharIdx '.' xs = none := by
      rw [findCharIdx, if_neg hx] at h
      simpa using h
    show findCharIdx '.' (x :: (xs ++ '.' :: col)) = some (x :: xs).length
    rw [findCharIdx, if_neg hx, ih h']
    simp [List.length_cons]

/-- `backlink_split` recovers the table and column names of a well-formed
backlink payload. -/
theorem backlink_split_eq (tbl col : List Char) (h : findCharIdx '.' tbl = none) :
    backlink_split (("@links.".toList ++ tbl) ++ '.' :: col) = (tbl, col) := by
  have hdrop : (tbl ++ '.' :: col).drop (tbl.length + 1) = col := by
    have hpair : tbl ++ '.' :: col = (tbl ++ ['.']) ++ col := by simp
    have hlen : tbl.length + 1 = (tbl ++ ['.']).length := by simp
    rw [hpair, hlen, List.drop_left]
  unfold backlink_split
  rw [drop_links_marker]
  simp only [findCharIdx_append_dot tbl col h, List.take_left, hdrop]

/-- The printable table name contains the spec's class_-stripped name. -/
theorem spec_stripped_infix_printable (n : List Char) :
    ∃ l r, get_printable_table_name n = l ++ spec_stripped_table_name n ++ r := by
  unfold get_printable_table_name spec_stripped_table_name
  by_cases h1 : n.take class_table_marker.length == class_table_marker
  · by_cases h2 : n.length > class_table_marker.length
    · exact ⟨[], [], by simp [h1, h2]⟩
    · have hn : n = class_table_marker := by
        have hle : n.length ≤ class_table_marker.length := by omega
        have htake : n.take class_table_marker.length = n := List.take_of_length_le hle
        have := eq_of_beq h1
        rw [htake] at this
        exact this
      subst hn
      exact ⟨class_table_marker, [], by simp⟩
  · exact ⟨[], [], by simp [h1]⟩

/-- The backlink failure message starts with "No property" and contains the
class_-stripped table name. -/
theorem backlink_message_props (tblname colname cur : List Char) :
    (∃ rest, backlink_error_message tblname colname cur = "No property".toList ++ rest)
    ∧ containsL (backlink_error_message tblname colname cur)
        (spec_stripped_table_name tblname) := by
  constructor
  · refine ⟨" '".toList ++ colname ++ "' found in type '".toList
      ++ get_printable_table_name tblname ++ "' which links to type '".toList
      ++ get_printable_table_name cur ++ "'".toList, ?_⟩
    unfold backlink_error_message
    have hlit : "No property '".toList = "No property".toList ++ " '".toList := by decide
    rw [hlit]
    simp [List.append_assoc]
  · obtain ⟨l, r, hp⟩ := spec_stripped_infix_printable tblname
    refine ⟨"No property '".toList ++ colname ++ "' found in type '".toList ++ l,
      r ++ "' which links to type '".toList ++ get_printable_table_name cur
        ++ "'".toList, ?_⟩
    unfold backlink_error_message
    rw [hp]
    simp [List.append_assoc]

/-- C7: for a backlink segment `@links.TBL.COL`, the resolver splits at the
first dot, looks the table up in the parent group and the column up on that
table; both lookups succeeding yields that table and column, and either
lookup failing throws an error that starts with "No property" and contains
the table name with any leading "class_" prefix stripped. -/
theorem claim_C7_backlink_lookup (g : GroupSchema) (cur tbl col : List Char)
    (hnodot : findCharIdx '.' tbl = none) :
    (∀ t k, get_table g tbl = some t → get_column_key t col = some k →
      LinkChain_backlink g cur ("@links.".toList ++ tbl ++ '.' :: col) = .ok (t, k))
    ∧ ((get_table g tbl = none ∨
        (∃ t, get_table g tbl = some t ∧ get_column_key t col = none)) →
      ∃ msg, LinkChain_backlink g cur ("@links.".toList ++ tbl ++ '.' :: col) = .error msg
        ∧ (∃ rest, msg = "No property".toList ++ rest)
        ∧ containsL msg (spec_stripped_table_name tbl)) := by
  have hsplit := backlink_split_eq tbl col hnodot
  constructor
  · intro t k ht hk
    simp only [LinkChain_backlink, hsplit, ht, hk]
  · intro hfail
    rcases hfail with hnone | ⟨t, ht, hk⟩
    · refine ⟨backlink_error_message tbl col cur, ?_, backlink_message_props tbl col cur⟩
      simp only [LinkChain_backlink, hsplit, hnone]
    · refine ⟨backlink_error_message tbl col cur, ?_, backlink_message_props tbl col cur⟩
      simp only [LinkChain_backlink, hsplit, ht, hk]

/-- C7 witness: an unknown table in the backlink payload fails with a
"No property" message containing the stripped table name. -/
theorem claim_C7_witness :
    ∃ msg, LinkChain_backlink exGroup "class_Person".toList
        ("@links.".toList ++ "class_Bank".toList ++ '.' :: "owner".toList) = .error msg
      ∧ (∃ rest, msg = "No property".toList ++ rest)
      ∧ containsL msg (spec_stripped_table_name "class_Bank".toList) :=
  (claim_C7_backlink_lookup exGroup "class_Person".toList "class_Bank".toList
    "owner".toList (by decide)).2 (Or.inl (by decide))

end RealmCore
